import Mathlib

/-!
Verification development for the gpt-backend repository: a set of single-file
Express/Node proxy servers for generative AI providers (OpenAI, Google
Gemini, xAI Grok, and a generic "flow" webhook).  Each definition below is a
shallow embedding of a function or request handler from the JavaScript
sources; the source file and line numbers are given in the doc comments.
Request-body fields and environment variables are modelled as
`Option String` (`none` = absent/undefined); thrown errors become `Except`
values; upstream HTTP exchanges are abstracted as functions supplied to the
handler models.
-/

namespace GptBackend

/-! ### JavaScript string helpers -/

/-- JavaScript whitespace (regex `\s`) restricted to the ASCII range: space,
tab, newline, carriage return, vertical tab, form feed.  Unicode space
classes are outside the modelled input range. -/
def jsWs (c : Char) : Bool :=
  c == ' ' || c == '\t' || c == '\n' || c == '\r' || c == Char.ofNat 11 || c == Char.ofNat 12

/-- `String.prototype.trim` on a char list: remove leading and trailing
whitespace. -/
def jsTrim (l : List Char) : List Char :=
  ((l.dropWhile jsWs).reverse.dropWhile jsWs).reverse

/-- JavaScript `x || d` for an optional string field: `undefined` and the
empty string are falsy. -/
def jsOrD (s : Option String) (d : String) : String :=
  match s with
  | none => d
  | some t => if t = "" then d else t

/-- JavaScript truthiness test `!x` for an optional string field. -/
def jsFalsy (s : Option String) : Bool :=
  match s with
  | none => true
  | some t => t == ""

/-- `String.prototype.toLowerCase` for ASCII input (the modelled range). -/
def jsToLower (s : String) : String :=
  String.mk (s.data.map Char.toLower)

/-! ### Model of the ECMAScript `JSON.parse` builtin

The servers hand model output to `JSON.parse` (an external runtime builtin,
not repository code).  It is modelled here as a total recursive-descent
parser over the JSON grammar.  Numbers are kept as validated lexemes rather
than converted to IEEE floats (no theorem below compares two different
lexemes of the same float); object fields are kept in source order. -/

/-- A parsed JSON value. -/
inductive JsValue where
  | null
  | bool (b : Bool)
  | num (lexeme : String)
  | str (s : String)
  | arr (items : List JsValue)
  | obj (fields : List (String × JsValue))

/-- JSON insignificant whitespace: exactly space, tab, newline, carriage
return. -/
def jsonWs (c : Char) : Bool :=
  c == ' ' || c == '\t' || c == '\n' || c == '\r'

/-- Drop leading JSON whitespace. -/
def skipWs (l : List Char) : List Char := l.dropWhile jsonWs

/-- Value of one hexadecimal digit (digits, then the two letter ranges by
code point). -/
def hexVal (c : Char) : Option Nat :=
  let n := c.toNat
  if 48 ≤ n ∧ n ≤ 57 then some (n - 48)
  else if 97 ≤ n ∧ n ≤ 102 then some (n - 87)
  else if 65 ≤ n ∧ n ≤ 70 then some (n - 55)
  else none

/-- Decode a single-character JSON string escape (`\b` and `\f` written by
code point). -/
def escChar : Char → Option Char
  | '"' => some '"'
  | '\\' => some '\\'
  | '/' => some '/'
  | 'b' => some (Char.ofNat 8)
  | 'f' => some (Char.ofNat 12)
  | 'n' => some '\n'
  | 'r' => some '\r'
  | 't' => some '\t'
  | _ => none

/-- Scan the body of a JSON string literal (the opening quote is already
consumed); returns the decoded characters and the input after the closing
quote. -/
def parseStrChars : List Char → Option (List Char × List Char)
  | [] => none
  | c :: rest =>
    if c == '"' then some ([], rest)
    else if c == '\\' then
      match rest with
      | [] => none
      | e :: rest2 =>
        if e == 'u' then
          match rest2 with
          | h1 :: h2 :: h3 :: h4 :: rest3 =>
            match hexVal h1, hexVal h2, hexVal h3, hexVal h4 with
            | some a, some b, some c2, some d =>
              match parseStrChars rest3 with
              | some (t, r) => some (Char.ofNat (((a * 16 + b) * 16 + c2) * 16 + d) :: t, r)
              | none => none
            | _, _, _, _ => none
          | _ => none
        else
          match escChar e with
          | some ec =>
            match parseStrChars rest2 with
            | some (t, r) => some (ec :: t, r)
            | none => none
          | none => none
    else if c.toNat < 32 then none
    else
      match parseStrChars rest with
      | some (t, r) => some (c :: t, r)
      | none => none

/-- Lex the optional fraction part of a JSON number. -/
def parseFrac (l : List Char) : Option (List Char × List Char) :=
  match l with
  | '.' :: r =>
    let ds := r.takeWhile Char.isDigit
    if ds = [] then none else some ('.' :: ds, r.dropWhile Char.isDigit)
  | _ => some ([], l)

/-- Lex the optional exponent part of a JSON number. -/
def parseExp (l : List Char) : Option (List Char × List Char) :=
  match l with
  | c :: r =>
    if c == 'e' || c == 'E' then
      let (sgn, r1) :=
        match r with
        | s :: r2 => if s == '+' || s == '-' then ([s], r2) else ([], r)
        | [] => ([], r)
      let ds := r1.takeWhile Char.isDigit
      if ds = [] then none else some (c :: (sgn ++ ds), r1.dropWhile Char.isDigit)
    else some ([], l)
  | [] => some ([], l)

/-- Assemble a number lexeme from sign, integer part and the rest. -/
def parseNumTail (sgn ip l : List Char) : Option (List Char × List Char) :=
  match parseFrac l with
  | none => none
  | some (fp, l2) =>
    match parseExp l2 with
    | none => none
    | some (ep, l3) => some (sgn ++ ip ++ fp ++ ep, l3)

/-- Lex a JSON number (JSON grammar: no leading `+`, no leading zeros). -/
def parseNumberChars (l : List Char) : Option (List Char × List Char) :=
  let (sgn, l1) :=
    match l with
    | '-' :: r => (['-'], r)
    | _ => ([], l)
  match l1 with
  | [] => none
  | c :: r =>
    if c == '0' then parseNumTail sgn ['0'] r
    else if c.isDigit then
      parseNumTail sgn (l1.takeWhile Char.isDigit) (l1.dropWhile Char.isDigit)
    else none

/-- Consume an expected literal tail (for `true` / `false` / `null`). -/
def dropLit : List Char → List Char → Option (List Char)
  | [], l => some l
  | _ :: _, [] => none
  | p :: ps, c :: cs => if c == p then dropLit ps cs else none

mutual

/-- Parse one JSON value, fuel-indexed (two units of fuel per input character
suffice, see `jsonParse`). -/
def parseVal : Nat → List Char → Option (JsValue × List Char)
  | 0, _ => none
  | fuel + 1, l =>
    match skipWs l with
    | [] => none
    | c :: rest =>
      if c == Char.ofNat 123 then
        match skipWs rest with
        | [] => none
        | c2 :: r2 =>
          if c2 == Char.ofNat 125 then some (.obj [], r2)
          else
            match parseObjTail fuel (c2 :: r2) with
            | some (fs, r) => some (.obj fs, r)
            | none => none
      else if c == '[' then
        match skipWs rest with
        | [] => none
        | c2 :: r2 =>
          if c2 == ']' then some (.arr [], r2)
          else
            match parseArrTail fuel (c2 :: r2) with
            | some (xs, r) => some (.arr xs, r)
            | none => none
      else if c == '"' then
        match parseStrChars rest with
        | some (cs, r) => some (.str (String.mk cs), r)
        | none => none
      else if c == 't' then
        match dropLit (['r', 'u', 'e']) rest with
        | some r => some (.bool true, r)
        | none => none
      else if c == 'f' then
        match dropLit (['a', 'l', 's', 'e']) rest with
        | some r => some (.bool false, r)
        | none => none
      else if c == 'n' then
        match dropLit (['u', 'l', 'l']) rest with
        | some r => some (.null, r)
        | none => none
      else
        match parseNumberChars (c :: rest) with
        | some (lex, r) => some (.num (String.mk lex), r)
        | none => none

/-- Parse the non-empty element list of a JSON array (after `[`). -/
def parseArrTail : Nat → List Char → Option (List JsValue × List Char)
  | 0, _ => none
  | fuel + 1, l =>
    match parseVal fuel l with
    | none => none
    | some (v, r1) =>
      match skipWs r1 with
      | ',' :: r2 =>
        match parseArrTail fuel r2 with
        | some (vs, r3) => some (v :: vs, r3)
        | none => none
      | ']' :: r2 => some ([v], r2)
      | _ => none

/-- Parse the non-empty member list of a JSON object (after the opening
brace). -/
def parseObjTail : Nat → List Char → Option (List (String × JsValue) × List Char)
  | 0, _ => none
  | fuel + 1, l =>
    match skipWs l with
    | '"' :: r =>
      match parseStrChars r with
      | none => none
      | some (k, r1) =>
        match skipWs r1 with
        | ':' :: r2 =>
          match parseVal fuel r2 with
          | none => none
          | some (v, r3) =>
            match skipWs r3 with
            | ',' :: r4 =>
              match parseObjTail fuel r4 with
              | some (fs, r5) => some ((String.mk k, v) :: fs, r5)
              | none => none
            | c4 :: r4 =>
              if c4 == Char.ofNat 125 then some ([(String.mk k, v)], r4)
              else none
            | [] => none
        | _ => none
    | _ => none

end

/-- Model of `JSON.parse(s)`: strict parse of the whole input as one JSON
value (surrounding whitespace allowed, anything else after the value is a
`SyntaxError`).  A `SyntaxError` is `none`. -/
def jsonParse (s : String) : Option JsValue :=
  match parseVal (2 * s.data.length + 2) s.data with
  | some (v, rest) => if skipWs rest = [] then some v else none
  | none => none

/-! ### ResponseExtractor: `stripCodeFences` and `extractJSONObject` -/

/-- The backtick character, written by code point to keep source text
free of fence markers. -/
def tick : Char := Char.ofNat 96

/-- `stripCodeFences` — server.js lines 341-348.  Mirrors the three regex
replaces and the final trim, in the source's order: the opening-fence
patterns are anchored at the START of the RAW string (`^` before any trim),
the closing-fence pattern at its end (tolerating trailing whitespace), and
only then is the result trimmed.  `if(!s) return ""` handles the empty
string. -/
def stripCodeFences (s : String) : String :=
  if s = "" then ""
  else
    let l0 := s.data
    let l1 :=
      if (l0.take 7).map Char.toLower = [tick, tick, tick, 'j', 's', 'o', 'n'] then
        (l0.drop 7).dropWhile jsWs
      else l0
    let l2 :=
      if l1.take 3 = [tick, tick, tick] then (l1.drop 3).dropWhile jsWs
      else l1
    let l3 :=
      let r := l2.reverse
      let r1 := r.dropWhile jsWs
      if r1.take 3 = [tick, tick, tick] then (r1.drop 3).reverse else l2
    String.mk (jsTrim l3)

/-- The cleaning step as claim C7 and section 4.4 of the specification word
it: FIRST trim the input, THEN strip the fence markers when present.  This
definition follows the spec's words (not the code) and exists only to be
compared with `stripCodeFences`. -/
def specTrimThenStrip (s : String) : String :=
  let l0 := jsTrim s.data
  let l1 :=
    if (l0.take 7).map Char.toLower = [tick, tick, tick, 'j', 's', 'o', 'n'] then
      (l0.drop 7).dropWhile jsWs
    else l0
  let l2 :=
    if l1.take 3 = [tick, tick, tick] then (l1.drop 3).dropWhile jsWs
    else l1
  let l3 :=
    let r := l2.reverse
    let r1 := r.dropWhile jsWs
    if r1.take 3 = [tick, tick, tick] then (r1.drop 3).reverse else l2
  String.mk l3

/-- First index at which the three-backtick fence marker occurs. -/
def findTicks : List Char → Option Nat
  | [] => none
  | c :: cs =>
    if (c :: cs).take 3 = [tick, tick, tick] then some 0
    else
      match findTicks cs with
      | some i => some (i + 1)
      | none => none

/-- Group 1 of the first match of the fence regex (part_004 line 44; an
unanchored, case-insensitive, lazily captured
three-backtick/optional-json fence pair).  The regex matches iff an
opening marker has a later closing marker; the lazy capture together with
leftmost matching makes the group the span between the first marker (plus
an immediately following `json` tag) and the next marker.  The `\s*`
borders of the group are irrelevant because the caller trims the group. -/
def fenceInner (l : List Char) : Option (List Char) :=
  match findTicks l with
  | none => none
  | some i =>
    let after := (l.drop i).drop 3
    let after2 :=
      if (after.take 4).map Char.toLower = ['j', 's', 'o', 'n'] then after.drop 4 else after
    match findTicks after2 with
    | none => none
    | some j => some (after2.take j)

/-- `String.prototype.indexOf` for a single character. -/
def idxOf (c : Char) : List Char → Option Nat
  | [] => none
  | d :: ds =>
    if d == c then some 0
    else
      match idxOf c ds with
      | some i => some (i + 1)
      | none => none

/-- `String.prototype.lastIndexOf` for a single character. -/
def lastIdxOf (c : Char) (l : List Char) : Option Nat :=
  match idxOf c l.reverse with
  | some i => some (l.length - 1 - i)
  | none => none

/-- `extractJSONObject` — part_004 lines 40-57: trim; unfence via the fence
regex when it matches (trimming the captured group); then parse exactly the
slice from the first opening brace to the last closing brace, returning
`null` when either brace is missing, the last closes before the first
opens, or the slice fails to parse. -/
def extractJSONObject (text : String) : Option JsValue :=
  let t := jsTrim text.data
  if t = [] then none
  else
    let raw :=
      match fenceInner t with
      | some inner => jsTrim inner
      | none => t
    match idxOf (Char.ofNat 123) raw, lastIdxOf (Char.ofNat 125) raw with
    | some first, some last =>
      if last ≤ first then none
      else jsonParse (String.mk ((raw.drop first).take (last + 1 - first)))
    | _, _ => none

/-- The two response shapes of the unified /api/generate tail: the parsed
JSON value, or the cleaned raw text. -/
inductive GenRespond where
  | jsonVal (v : JsValue)
  | rawText (raw : String)

/-- Tail of POST /api/generate (all-in-one variant, server.js lines
417-425): clean the upstream content, attempt a strict parse, and answer
HTTP 200 with either the parsed value or the cleaned raw text — a parse
failure never fails the request. -/
def allInOneRespond (content : String) : Nat × GenRespond :=
  let cleaned := stripCodeFences content
  match jsonParse cleaned with
  | some v => (200, .jsonVal v)
  | none => (200, .rawText cleaned)

/-! ### RetryExecutor -/

/-- A thrown JavaScript error as the retry helper inspects it: the optional
`err.status`, the optional `err.response.status`, and `err.message`. -/
structure JsErr where
  status : Option Nat
  responseStatus : Option Nat
  message : String
  deriving DecidableEq

/-- `err?.status || err?.response?.status` (JS `||`: `undefined` and `0` are
falsy). -/
def errStatus (e : JsErr) : Option Nat :=
  match e.status with
  | some n => if n = 0 then e.responseStatus else some n
  | none => e.responseStatus

/-- Observable outcome of one run of the retry helper: the returned or
thrown value, how many times `makeCall` was invoked, and the backoff sleeps
performed, in order. -/
structure RetryOutcome (α : Type) where
  result : Except JsErr α
  calls : Nat
  sleepsMs : List Nat

/-- Loop body of `callOpenAIWithRetry` / `callWithRetry` (server.js lines
208-223; part_000 68-84; part_001 81-100; part_002 54-70 and 325-340;
part_003 54-69).  The loop index `i` runs from 0 to `retries`; here
`rem = retries - i` counts the attempts remaining after the current one, so
the source's `i < retries` guard is exactly `rem > 0`.  The operation is a
function of the attempt index; on a 429 failure with retries remaining the
helper sleeps `1000 * 2 ^ i` ms and continues, otherwise it rethrows the
error unchanged.  The final `throw lastErr` after the source loop is dead
code (every iteration returns, throws, or continues). -/
def retryExec {α : Type} (op : Nat → Except JsErr α) (i rem : Nat) : RetryOutcome α :=
  match op i with
  | .ok a => ⟨.ok a, 1, []⟩
  | .error e =>
    match rem with
    | 0 => ⟨.error e, 1, []⟩
    | r + 1 =>
      if errStatus e = some 429 then
        let out := retryExec op (i + 1) r
        ⟨out.result, out.calls + 1, 1000 * 2 ^ i :: out.sleepsMs⟩
      else ⟨.error e, 1, []⟩

/-- `callOpenAIWithRetry(makeCall, retries)`: run the loop from attempt
index 0. -/
def callOpenAIWithRetry {α : Type} (op : Nat → Except JsErr α) (retries : Nat) :
    RetryOutcome α :=
  retryExec op 0 retries

/-! ### Credentials and provider selection -/

/-- Server-side environment credentials (an unset variable is `none`). -/
structure Env where
  OPENAI_API_KEY : Option String
  GOOGLE_API_KEY : Option String
  XAI_API_KEY : Option String

/-- `pickEnvKey` — server.js lines 23-28: resolve the provider's env
variable, defaulting to the empty string. -/
def pickEnvKey (env : Env) (provider : String) : String :=
  if provider = "openai" then env.OPENAI_API_KEY.getD ("")
  else if provider = "google" then env.GOOGLE_API_KEY.getD ("")
  else if provider = "grok" then env.XAI_API_KEY.getD ("")
  else ""

/-- `cleanProvider` — server.js lines 30-34: lowercase the requested
provider and COERCE anything unrecognized to `"openai"`. -/
def cleanProvider (p : Option String) : String :=
  let v := jsToLower (p.getD (""))
  if v = "openai" || v = "google" || v = "grok" then v else "openai"

/-! ### Request handler models

Each handler is modelled up to the point where it either sends an early
JSON error response or commits to an upstream call; `CallOutcome` records
which, together with the provider reached, the API key attached to the
upstream request (Bearer header, or `?key=` query for Gemini), and the user
text forwarded.  A `.reject` therefore certifies that no adapter was
invoked. -/

/-- Body of the JSON endpoints (absent fields are `none`). -/
structure Server2Body where
  provider : Option String
  model : Option String
  system : Option String
  user : Option String

/-- Early response versus committed upstream call. -/
inductive CallOutcome where
  | reject (status : Nat) (error : String)
  | callUpstream (provider : String) (apiKey : String) (userText : String)
  deriving DecidableEq

/-- POST /api/generate of the server2 variant (server.js lines 112-130):
the provider is coerced by `cleanProvider`; the env key presence is checked
(status 400 — not 500 — on absence); then the matching adapter runs with no
validation of `user` at all.  The adapters (`callOpenAI` / `callGemini` /
`callGrok`, lines 36-107) read the same env variable the check consulted
and forward `user || ""` (for Gemini as the tail of the single
`system\n\nuser` part, recorded here as the full part text). -/
def server2Generate (env : Env) (b : Server2Body) : CallOutcome :=
  let provider := cleanProvider b.provider
  let envKey := pickEnvKey env provider
  if envKey = "" then
    .reject 400 ("Server missing API key env for provider: " ++ provider)
  else if provider = "openai" then
    .callUpstream ("openai") (env.OPENAI_API_KEY.getD ("")) (jsOrD b.user (""))
  else if provider = "google" then
    .callUpstream ("google") (env.GOOGLE_API_KEY.getD (""))
      (jsOrD b.system ("") ++ "\n\n" ++ jsOrD b.user (""))
  else
    .callUpstream ("grok") (env.XAI_API_KEY.getD ("")) (jsOrD b.user (""))

/-- Validation and dispatch of POST /api/generate (all-in-one variant,
server.js lines 350-415).  Destructuring defaults apply only to absent
fields; `if(!user)` rejects a missing or empty — but NOT whitespace-only —
prompt before any provider branch; each branch checks its own env variable
(500 on absence) and otherwise commits to the upstream call; an
unrecognized provider (no lowercasing here) is rejected with 400. -/
def allInOneGenerate (env : Env) (b : Server2Body) : CallOutcome :=
  let provider := b.provider.getD ("openai")
  let user := b.user.getD ("")
  if user = "" then .reject 400 ("Missing \x27user\x27 prompt")
  else if provider = "openai" then
    if env.OPENAI_API_KEY.getD ("") = "" then .reject 500 ("OPENAI_API_KEY is not set")
    else .callUpstream ("openai") (env.OPENAI_API_KEY.getD ("")) user
  else if provider = "google" then
    if env.GOOGLE_API_KEY.getD ("") = "" then .reject 500 ("GOOGLE_API_KEY is not set")
    else
      .callUpstream ("google") (env.GOOGLE_API_KEY.getD (""))
        (b.system.getD ("") ++ "\n\n" ++ user)
  else if provider = "grok" then
    if env.XAI_API_KEY.getD ("") = "" then .reject 500 ("XAI_API_KEY is not set")
    else .callUpstream ("grok") (env.XAI_API_KEY.getD ("")) user
  else .reject 400 ("Unsupported provider: " ++ provider)

/-- Body of the multipart prompt endpoints. -/
structure PromptBody where
  soraPrompt : Option String

/-- Validation of POST /api/generate-gpt-prompt (part_000 lines 118-191;
identically part_001 129-214, part_002 96-172, part_003 81-123 and the
prompt half of server.js 235-277): the env key is checked first (500), then
`String(req.body?.soraPrompt || "").trim()` must be non-empty (400), and
only then is the OpenAI responses call made through the retry helper, using
the client constructed from `process.env.OPENAI_API_KEY`. -/
def gptPromptGenerate (env : Env) (b : PromptBody) : CallOutcome :=
  if env.OPENAI_API_KEY.getD ("") = "" then .reject 500 ("Missing OPENAI_API_KEY")
  else
    let soraPrompt := String.mk (jsTrim ((jsOrD b.soraPrompt ("")).data))
    if soraPrompt = "" then .reject 400 ("Missing soraPrompt")
    else .callUpstream ("openai") (env.OPENAI_API_KEY.getD ("")) soraPrompt

/-- Body of the script-pro /api/generate, which carries a client-side
`apiKey` field. -/
structure ScriptProBody where
  provider : Option String
  apiKey : Option String
  model : Option String
  system : Option String
  user : Option String

/-- POST /api/generate of the script-pro variant (part_003 lines 207-276):
`const { provider, apiKey, model, system, user } = req.body`; provider and
apiKey must be truthy (400 otherwise); the BODY's `apiKey` is then
forwarded verbatim as the upstream credential (Bearer header for
openai/grok, `?key=` query for google); an unknown provider is 400.  Body
fields are modelled as strings when present (the `undefined`-coercion
corner of JS string concatenation is outside the modelled range). -/
def scriptProGenerate (b : ScriptProBody) : CallOutcome :=
  if jsFalsy b.provider || jsFalsy b.apiKey then
    .reject 400 ("Missing provider or apiKey")
  else
    let p := b.provider.getD ("")
    if p = "openai" then .callUpstream ("openai") (b.apiKey.getD ("")) (b.user.getD (""))
    else if p = "google" then
      .callUpstream ("google") (b.apiKey.getD (""))
        (b.system.getD ("") ++ "\n\n" ++ b.user.getD (""))
    else if p = "grok" then .callUpstream ("grok") (b.apiKey.getD ("")) (b.user.getD (""))
    else .reject 400 ("Unknown provider")

/-! ### Gemini response text extraction -/

/-- One element of `candidates[0].content.parts`. -/
structure GPart where
  text : Option String

/-- `candidates[0].content`. -/
structure GContent where
  parts : Option (List GPart)

/-- One element of `candidates`. -/
structure GCand where
  content : Option GContent

/-- A generate-content response body. -/
structure GResp where
  candidates : Option (List GCand)

/-- `data?.candidates?.[0]?.content?.parts?.map(p=>p?.text||"").join("") || ""`
— server.js line 80 and line 388; part_004 lines 107-108 maps `p.text`
without a fallback, but `Array.prototype.join` coerces an `undefined`
element to `""`, giving the same function. -/
def geminiJoinText (r : GResp) : String :=
  match ((r.candidates.bind List.head?).bind GCand.content).bind GContent.parts with
  | none => ""
  | some ps =>
    let s := String.join (ps.map fun p => p.text.getD (""))
    if s = "" then "" else s

/-- `data.candidates?.[0]?.content?.parts?.[0]?.text || ""` — the google
branch of the script-pro /api/generate (part_003 line 250): only the FIRST
part's text is read. -/
def scriptProGoogleText (r : GResp) : String :=
  (((((r.candidates.bind List.head?).bind GCand.content).bind GContent.parts).bind
    List.head?).bind GPart.text).getD ("")

/-! ### Image generation response -/

/-- One element of the image response `data` array. -/
structure ImgDatum where
  b64_json : Option String

/-- A 2xx image-generation response body. -/
structure ImgResp where
  data : Option (List ImgDatum)

/-- The JSON envelope and status the image endpoint answers with. -/
structure ImgOut where
  status : Nat
  success : Bool
  error : Option String
  mime : Option String
  b64 : Option String
  deriving DecidableEq

/-- Response assembly of POST /api/generate-image after a 2xx upstream
reply (server.js lines 315-324; identically part_002 246-251 and, with an
extra filename field, part_000 296-306 and part_001 320-333):
`const b64 = imgResp?.data?.[0]?.b64_json; if(!b64)` answer 502 with an
error envelope, else answer 200 with the success envelope. -/
def imageRespond (resp : ImgResp) : ImgOut :=
  let b64 := (resp.data.bind List.head?).bind ImgDatum.b64_json
  match b64 with
  | none => ⟨502, false, some ("Empty image result"), none, none⟩
  | some s =>
    if s = "" then ⟨502, false, some ("Empty image result"), none, none⟩
    else ⟨200, true, none, some ("image/png"), some s⟩

/-! ### Zero-dependency proxy: rate limiter and /api/storyboard -/

/-- One per-IP record of the in-memory limiter map
`hits : ip -> {count, ts}` (part_004 line 140). -/
structure RLRec where
  count : Nat
  ts : Int
  deriving DecidableEq

/-- Per-IP transition of `rateLimit` (part_004 lines 141-163) for one
request arriving at clock `now` (ms): a missing record defaults to
`{count:0, ts:now}`; a record whose window started more than 60000 ms ago
is reset to `{count:0, ts:now}`; the count is then incremented and stored,
and the request is admitted iff the stored count does not exceed 60.  A
rejected request is answered `429 {ok:false, error:"Rate limit exceeded"}`
before the request body is even read. -/
def rateLimitStep (v : Option RLRec) (now : Int) : RLRec × Bool :=
  let v0 := v.getD ⟨0, now⟩
  let v1 := if now - v0.ts > 60000 then ⟨0, now⟩ else v0
  let v2 : RLRec := ⟨v1.count + 1, v1.ts⟩
  (v2, decide (v2.count ≤ 60))

/-- Fold `rateLimitStep` over the arrival clocks of one IP's requests,
returning the final record and how many of the requests were admitted. -/
def rateLimitRun : Option RLRec → List Int → Option RLRec × Nat
  | st, [] => (st, 0)
  | st, t :: ts =>
    let (v, adm) := rateLimitStep st t
    let (st2, k) := rateLimitRun (some v) ts
    (st2, (if adm then 1 else 0) + k)

/-- The JSON envelope and status of a /api/storyboard response. -/
structure SBResp where
  status : Nat
  ok : Bool
  error : Option String
  text : Option String
  parsedJson : Option JsValue

/-- POST /api/storyboard (part_004 lines 181-214) for one request from one
IP: the limiter runs first (429 on rejection, body never read); then the
parsed JSON body (a parse failure is caught as a 500), the `user` check
(400, untrimmed), provider dispatch (unknown is 400), and — on upstream
success — a 200 response whose `parsed_json` is ALWAYS `extractJSONObject`
of the upstream text; a thrown upstream error is caught as a 500 carrying
its message.  The final Bool records whether a provider adapter was
invoked. -/
def storyboardStep (st : Option RLRec) (now : Int) (body : Except String Server2Body)
    (upstream : String → Except JsErr String) :
    Option RLRec × SBResp × Bool :=
  let (v, adm) := rateLimitStep st now
  if adm = false then
    (some v, ⟨429, false, some ("Rate limit exceeded"), none, none⟩, false)
  else
    match body with
    | .error msg => (some v, ⟨500, false, some msg, none, none⟩, false)
    | .ok b =>
      let provider := jsToLower (jsOrD b.provider ("openai"))
      let user := jsOrD b.user ("")
      if user = "" then
        (some v, ⟨400, false, some ("Missing \x27user\x27 prompt"), none, none⟩, false)
      else if provider = "openai" || provider = "google" || provider = "grok" then
        match upstream provider with
        | .ok text => (some v, ⟨200, true, none, some text, extractJSONObject text⟩, true)
        | .error e => (some v, ⟨500, false, some e.message, none, none⟩, true)
      else
        (some v,
          ⟨400, false, some ("Unknown provider (use openai/google/grok)"), none, none⟩,
          false)

/-! ### Concrete fixtures used by the witness theorems -/

/-- An operation that is rate limited on its first two attempts and
succeeds on the third. -/
def c1Op : Nat → Except JsErr Nat := fun i =>
  if i < 2 then .error ⟨some 429, none, "rate limited"⟩ else .ok 42

/-- An operation that always fails with HTTP 500. -/
def c9Op500 : Nat → Except JsErr Nat := fun _ => .error ⟨some 500, none, "boom"⟩

/-- An operation that always fails with HTTP 429. -/
def c9Op429 : Nat → Except JsErr Nat := fun _ => .error ⟨some 429, none, "limit"⟩

/-! ## Theorems for the claims C1-C10 -/

/-- C1 (confirmed): for every operation that fails with HTTP status 429 on
its first two invocations and succeeds on the third, the retry executor
with maxRetries = 2 invokes the operation exactly 3 times, sleeping 1000 ms
before the second attempt and 2000 ms before the third
(`1000 * 2 ^ attemptIndex`), and returns the third invocation's success
value. -/
theorem c1_retry_429_twice_then_success {α : Type} (op : Nat → Except JsErr α)
    (e0 e1 : JsErr) (a : α)
    (h0 : op 0 = .error e0) (h0s : errStatus e0 = some 429)
    (h1 : op 1 = .error e1) (h1s : errStatus e1 = some 429)
    (h2 : op 2 = .ok a) :
    callOpenAIWithRetry op 2 = ⟨.ok a, 3, [1000, 2000]⟩ := by
  simp [callOpenAIWithRetry, retryExec, h0, h0s, h1, h1s, h2]

/-- Witness for C1: the concrete operation `c1Op` fails with 429 twice and
then returns 42. -/
theorem c1_retry_429_twice_then_success_witness :
    callOpenAIWithRetry c1Op 2 = ⟨.ok 42, 3, [1000, 2000]⟩ :=
  c1_retry_429_twice_then_success c1Op ⟨some 429, none, "rate limited"⟩
    ⟨some 429, none, "rate limited"⟩ 42 rfl rfl rfl rfl rfl

/-- C9 (confirmed): an operation whose failure carries a status other than
429 — or no status at all — is invoked exactly once, with no backoff sleep,
and its error propagates unchanged; when 429 retries are exhausted the last
error likewise propagates unchanged after 3 invocations and backoffs of
1000 ms and 2000 ms. -/
theorem c9_retry_propagation :
    (∀ (α : Type) (op : Nat → Except JsErr α) (e : JsErr), op 0 = .error e →
      errStatus e ≠ some 429 → callOpenAIWithRetry op 2 = ⟨.error e, 1, []⟩) ∧
    (∀ (α : Type) (op : Nat → Except JsErr α) (e0 e1 e2 : JsErr),
      op 0 = .error e0 → errStatus e0 = some 429 →
      op 1 = .error e1 → errStatus e1 = some 429 →
      op 2 = .error e2 → errStatus e2 = some 429 →
      callOpenAIWithRetry op 2 = ⟨.error e2, 3, [1000, 2000]⟩) := by
  constructor
  · intro α op e h0 hs
    simp [callOpenAIWithRetry, retryExec, h0, hs]
  · intro α op e0 e1 e2 h0 h0s h1 h1s h2 h2s
    simp [callOpenAIWithRetry, retryExec, h0, h0s, h1, h1s, h2, h2s]

/-- Witness for C9: a constant-500 operation is called once and its error
propagates; a constant-429 operation is called three times and the last
error propagates after backoffs 1000 ms and 2000 ms. -/
theorem c9_retry_propagation_witness :
    callOpenAIWithRetry c9Op500 2 = ⟨.error ⟨some 500, none, "boom"⟩, 1, []⟩ ∧
    callOpenAIWithRetry c9Op429 2 = ⟨.error ⟨some 429, none, "limit"⟩, 3, [1000, 2000]⟩ :=
  ⟨c9_retry_propagation.1 Nat c9Op500 ⟨some 500, none, "boom"⟩ rfl (by decide),
   c9_retry_propagation.2 Nat c9Op429 ⟨some 429, none, "limit"⟩ ⟨some 429, none, "limit"⟩
     ⟨some 429, none, "limit"⟩ rfl rfl rfl rfl rfl rfl⟩

/-- C2 counterexample: the script-pro /api/generate variant (part_003 lines
207-232) forwards a client-supplied body `apiKey` to the upstream provider
— here the client's key reaches the upstream Bearer header even though the
server-side environment holds a different key for the same provider. -/
theorem c2_client_api_key_counterexample :
    scriptProGenerate ⟨some ("openai"), some ("sk-client-supplied"), none, none, some ("hi")⟩
      = .callUpstream ("openai") ("sk-client-supplied") ("hi") ∧
    pickEnvKey ⟨some ("sk-server"), none, none⟩ ("openai") = "sk-server" ∧
    ("sk-client-supplied" : String) ≠ "sk-server" := by
  refine ⟨rfl, rfl, by decide⟩

/-- C2 amended: in the env-key variants (server2 /api/generate, all-in-one
/api/generate, generate-gpt-prompt) every upstream call carries exactly the
server-side credential resolved by provider name and never a body field;
the script-pro /api/generate variant instead forwards the client body's
`apiKey` verbatim. -/
theorem c2_upstream_credentials_amended :
    (∀ (env : Env) (b : Server2Body) (p k u : String),
      server2Generate env b = .callUpstream p k u → k = pickEnvKey env p) ∧
    (∀ (env : Env) (b : Server2Body) (p k u : String),
      allInOneGenerate env b = .callUpstream p k u → k = pickEnvKey env p) ∧
    (∀ (env : Env) (b : PromptBody) (p k u : String),
      gptPromptGenerate env b = .callUpstream p k u → k = pickEnvKey env p) ∧
    (∀ (b : ScriptProBody) (p k u : String),
      scriptProGenerate b = .callUpstream p k u → k = b.apiKey.getD ("")) := by
  refine ⟨?_, ?_, ?_, ?_⟩
  · intro env b p k u h
    simp only [server2Generate] at h
    split_ifs at h
    all_goals injection h with hp hk hu
    all_goals subst hp
    all_goals subst hk
    all_goals rfl
  · intro env b p k u h
    simp only [allInOneGenerate] at h
    split_ifs at h
    all_goals injection h with hp hk hu
    all_goals subst hp
    all_goals subst hk
    all_goals rfl
  · intro env b p k u h
    simp only [gptPromptGenerate] at h
    split_ifs at h
    all_goals injection h with hp hk hu
    all_goals subst hp
    all_goals subst hk
    all_goals rfl
  · intro b p k u h
    simp only [scriptProGenerate] at h
    split_ifs at h
    all_goals injection h with hp hk hu
    all_goals subst hp
    all_goals subst hk
    all_goals rfl

/-- Witness for the amended C2, at a server2 request that commits to an
upstream call and at a script-pro request. -/
theorem c2_upstream_credentials_amended_witness :
    ("sk" : String) = pickEnvKey ⟨some ("sk"), none, none⟩ ("openai") ∧
    ("sk-c" : String) = (some ("sk-c") : Option String).getD ("") :=
  ⟨c2_upstream_credentials_amended.1 ⟨some ("sk"), none, none⟩
      ⟨some ("openai"), none, none, some ("hi")⟩ ("openai") ("sk") ("hi") rfl,
   c2_upstream_credentials_amended.2.2.2
      ⟨some ("grok"), some ("sk-c"), none, none, some ("hi")⟩ ("grok") ("sk-c") ("hi") rfl⟩

/-- C3 counterexample: `cleanProvider` coerces the unrecognized provider
name "bogus" to "openai", and the server2 /api/generate then invokes the
OpenAI adapter instead of returning a 400 "unknown provider" error. -/
theorem c3_unknown_provider_counterexample :
    cleanProvider (some ("bogus")) = "openai" ∧
    server2Generate ⟨some ("sk-test"), none, none⟩ ⟨some ("bogus"), none, none, some ("hi")⟩
      = .callUpstream ("openai") ("sk-test") ("hi") := by
  refine ⟨by decide, by decide⟩

/-- C3 amended: the all-in-one /api/generate, the storyboard proxy and the
script-pro variant reject an unrecognized provider with 400 and invoke no
adapter; the server2 variant instead coerces any unrecognized (lowercased)
provider name to "openai" via `cleanProvider` and proceeds with the OpenAI
adapter. -/
theorem c3_unknown_provider_amended :
    (∀ (env : Env) (b : Server2Body) (p : String), b.provider = some p →
      p ≠ "openai" → p ≠ "google" → p ≠ "grok" →
      b.user.getD ("") ≠ "" →
      allInOneGenerate env b = .reject 400 ("Unsupported provider: " ++ p)) ∧
    (∀ (st : Option RLRec) (now : Int) (b : Server2Body)
       (up : String → Except JsErr String) (q : String),
      (rateLimitStep st now).2 = true →
      jsToLower (jsOrD b.provider ("openai")) = q →
      q ≠ "openai" → q ≠ "google" → q ≠ "grok" →
      jsOrD b.user ("") ≠ "" →
      storyboardStep st now (.ok b) up
        = (some (rateLimitStep st now).1,
           ⟨400, false, some ("Unknown provider (use openai/google/grok)"), none, none⟩,
           false)) ∧
    (∀ (b : ScriptProBody) (p : String), b.provider = some p →
      jsFalsy b.provider = false → jsFalsy b.apiKey = false →
      p ≠ "openai" → p ≠ "google" → p ≠ "grok" →
      scriptProGenerate b = .reject 400 ("Unknown provider")) ∧
    (∀ p : String, jsToLower p ≠ "openai" → jsToLower p ≠ "google" → jsToLower p ≠ "grok" →
      cleanProvider (some p) = "openai") := by
  refine ⟨?_, ?_, ?_, ?_⟩
  · intro env b p hp h1 h2 h3 hu
    simp only [allInOneGenerate, hp, Option.getD_some]
    split_ifs <;> simp_all
  · intro st now b up q hadm hq h1 h2 h3 hu
    rcases hrl : rateLimitStep st now with ⟨v, adm⟩
    rw [hrl] at hadm
    simp only at hadm
    simp only [storyboardStep, hrl, hadm, hq]
    split_ifs <;> simp_all
  · intro b p hp hfp hfa h1 h2 h3
    simp only [scriptProGenerate, hp, hfp, hfa, Option.getD_some]
    split_ifs <;> simp_all
  · intro p h1 h2 h3
    simp only [cleanProvider, Option.getD_some]
    split_ifs <;> simp_all

/-- Witness for the amended C3, at the provider name "writer" with the
all-in-one handler and with `cleanProvider`. -/
theorem c3_unknown_provider_amended_witness :
    allInOneGenerate ⟨none, none, none⟩ ⟨some ("writer"), none, none, some ("hi")⟩
      = .reject 400 ("Unsupported provider: " ++ "writer") ∧
    cleanProvider (some ("writer")) = "openai" :=
  ⟨c3_unknown_provider_amended.1 ⟨none, none, none⟩
      ⟨some ("writer"), none, none, some ("hi")⟩ ("writer") rfl
      (by decide) (by decide) (by decide) (by decide),
   c3_unknown_provider_amended.2.2.2 ("writer") (by decide) (by decide) (by decide)⟩

/-- C4 counterexample: the script-pro google branch reads only
`parts[0].text`, so parts `[{text:"A"},{text:"B"}]` normalize to "A", not
to the concatenation "AB" produced by the other Gemini normalizers. -/
theorem c4_gemini_concat_counterexample :
    scriptProGoogleText ⟨some [⟨some ⟨some [⟨some ("A")⟩, ⟨some ("B")⟩]⟩⟩]⟩ = "A" ∧
    geminiJoinText ⟨some [⟨some ⟨some [⟨some ("A")⟩, ⟨some ("B")⟩]⟩⟩]⟩ = "AB" ∧
    ("A" : String) ≠ "AB" := by
  refine ⟨rfl, by decide, by decide⟩

/-- C4 amended: the Gemini normalizers of server.js (both variants) and of
the storyboard proxy concatenate `candidates[0].content.parts[].text` in
array order (so `[{text:"A"},{text:"B"}]` yields "AB"), while the
script-pro google branch yields only the first part's text. -/
theorem c4_gemini_concat_amended :
    (∀ ps : List GPart,
      geminiJoinText ⟨some [⟨some ⟨some ps⟩⟩]⟩
        = String.join (ps.map fun p => p.text.getD (""))) ∧
    (∀ ps : List GPart,
      scriptProGoogleText ⟨some [⟨some ⟨some ps⟩⟩]⟩
        = (ps.head?.bind GPart.text).getD ("")) ∧
    geminiJoinText ⟨some [⟨some ⟨some [⟨some ("A")⟩, ⟨some ("B")⟩]⟩⟩]⟩ = "AB" := by
  refine ⟨?_, ?_, by decide⟩
  · intro ps
    simp only [geminiJoinText, Option.some_bind, List.head?_cons]
    split <;> simp_all
  · intro ps
    simp [scriptProGoogleText]

/-- C5 counterexample: the server2 /api/generate answers status 400 — not a
500 server-configuration error — when the selected provider's credential is
not configured (though it does make no upstream call). -/
theorem c5_missing_credential_counterexample :
    server2Generate ⟨none, none, none⟩ ⟨some ("openai"), none, none, some ("hi")⟩
      = .reject 400 ("Server missing API key env for provider: openai") ∧
    (400 : Nat) ≠ 500 := by
  refine ⟨by decide, by decide⟩

/-- C5 amended: a missing provider credential always prevents the upstream
call; the all-in-one /api/generate and the generate-gpt-prompt handlers
answer 500, but the server2 /api/generate answers 400. -/
theorem c5_missing_credential_amended :
    (∀ (env : Env) (b : Server2Body),
      pickEnvKey env (cleanProvider b.provider) = "" →
      server2Generate env b
        = .reject 400 ("Server missing API key env for provider: " ++ cleanProvider b.provider)) ∧
    (∀ (env : Env) (b : Server2Body), b.user.getD ("") ≠ "" →
      b.provider.getD ("openai") = "openai" → env.OPENAI_API_KEY.getD ("") = "" →
      allInOneGenerate env b = .reject 500 ("OPENAI_API_KEY is not set")) ∧
    (∀ (env : Env) (b : Server2Body), b.user.getD ("") ≠ "" →
      b.provider.getD ("openai") = "google" → env.GOOGLE_API_KEY.getD ("") = "" →
      allInOneGenerate env b = .reject 500 ("GOOGLE_API_KEY is not set")) ∧
    (∀ (env : Env) (b : Server2Body), b.user.getD ("") ≠ "" →
      b.provider.getD ("openai") = "grok" → env.XAI_API_KEY.getD ("") = "" →
      allInOneGenerate env b = .reject 500 ("XAI_API_KEY is not set")) ∧
    (∀ (env : Env) (b : PromptBody), env.OPENAI_API_KEY.getD ("") = "" →
      gptPromptGenerate env b = .reject 500 ("Missing OPENAI_API_KEY")) := by
  refine ⟨?_, ?_, ?_, ?_, ?_⟩
  · intro env b hk
    simp [server2Generate, hk]
  · intro env b hu hp hk
    simp only [allInOneGenerate, hp]
    split_ifs <;> simp_all
  · intro env b hu hp hk
    simp only [allInOneGenerate, hp]
    split_ifs <;> simp_all
  · intro env b hu hp hk
    simp only [allInOneGenerate, hp]
    split_ifs <;> simp_all
  · intro env b hk
    simp [gptPromptGenerate, hk]

/-- Witness for the amended C5, at an empty environment. -/
theorem c5_missing_credential_amended_witness :
    server2Generate ⟨none, none, none⟩ ⟨some ("google"), none, none, some ("hi")⟩
      = .reject 400 ("Server missing API key env for provider: "
          ++ cleanProvider (some ("google"))) ∧
    allInOneGenerate ⟨none, none, none⟩ ⟨some ("openai"), none, none, some ("hi")⟩
      = .reject 500 ("OPENAI_API_KEY is not set") ∧
    gptPromptGenerate ⟨none, none, none⟩ ⟨some ("x")⟩
      = .reject 500 ("Missing OPENAI_API_KEY") :=
  ⟨c5_missing_credential_amended.1 ⟨none, none, none⟩
      ⟨some ("google"), none, none, some ("hi")⟩ (by decide),
   c5_missing_credential_amended.2.1 ⟨none, none, none⟩
      ⟨some ("openai"), none, none, some ("hi")⟩ (by decide) (by decide) (by decide),
   c5_missing_credential_amended.2.2.2.2 ⟨none, none, none⟩ ⟨some ("x")⟩ (by decide)⟩

/-- C6 (confirmed): when a 2xx image-generation response carries no
`data[0].b64_json`, the endpoint answers a 502 error envelope
`{success:false, error:...}`; a success envelope always carries a
non-empty base64 payload. -/
theorem c6_image_empty_result_502 :
    (∀ resp : ImgResp, (resp.data.bind List.head?).bind ImgDatum.b64_json = none →
      imageRespond resp = ⟨502, false, some ("Empty image result"), none, none⟩) ∧
    (∀ resp : ImgResp, (imageRespond resp).success = true →
      (imageRespond resp).status = 200 ∧ (imageRespond resp).b64 ≠ none ∧
      (imageRespond resp).b64 ≠ some ("")) := by
  constructor
  · intro resp h
    simp only [imageRespond, h]
  · intro resp
    simp only [imageRespond]
    rcases hb : (resp.data.bind List.head?).bind ImgDatum.b64_json with _ | s
    · intro h
      simp at h
    · intro h
      by_cases hs : s = ""
      · rw [hs] at h
        simp at h
      · simp [hs]

/-- Witness for C6: a response whose first datum has no `b64_json` yields
the 502 envelope; a response carrying "x" yields a 200 success. -/
theorem c6_image_empty_result_502_witness :
    imageRespond ⟨some [⟨none⟩]⟩ = ⟨502, false, some ("Empty image result"), none, none⟩ ∧
    ((imageRespond ⟨some [⟨some ("x")⟩]⟩).status = 200 ∧
     (imageRespond ⟨some [⟨some ("x")⟩]⟩).b64 ≠ none ∧
     (imageRespond ⟨some [⟨some ("x")⟩]⟩).b64 ≠ some ("")) :=
  ⟨c6_image_empty_result_502.1 ⟨some [⟨none⟩]⟩ rfl,
   c6_image_empty_result_502.2 ⟨some [⟨some ("x")⟩]⟩ rfl⟩

/-- C7 counterexample: `stripCodeFences` strips fences BEFORE trimming
(anchored regexes on the raw string), so a single leading space defeats the
opening-fence strip — the code then fails to parse and returns the fenced
text as raw, whereas the claimed trim-first algorithm (`specTrimThenStrip`)
would have produced parseable JSON; and the lenient extractor returns
`none` on the JSON array "[1]" which the strict parse accepts, although the
claim makes the lenient mode a fallback used only when strict parsing
fails. -/
theorem c7_extractor_counterexample :
    stripCodeFences (" ```json\n\x7b\"a\":1\x7d\n```") = "```json\n\x7b\"a\":1\x7d" ∧
    jsonParse (stripCodeFences (" ```json\n\x7b\"a\":1\x7d\n```")) = none ∧
    specTrimThenStrip (" ```json\n\x7b\"a\":1\x7d\n```") = "\x7b\"a\":1\x7d\n" ∧
    jsonParse (specTrimThenStrip (" ```json\n\x7b\"a\":1\x7d\n```"))
      = some (.obj [("a", .num ("1"))]) ∧
    jsonParse ("[1]") = some (.arr [.num ("1")]) ∧
    extractJSONObject ("[1]") = none := by
  refine ⟨by decide, rfl, by decide, rfl, rfl, rfl⟩

/-- C7 amended: `stripCodeFences` strips an opening three-backtick or
backtick-json fence only at the very start of the untrimmed input and a
closing fence at its end, then trims; the unified /api/generate strictly
parses that cleaned text and on failure still answers 200 with the cleaned
text as `raw`; `extractJSONObject` (the lenient extractor) parses exactly
the slice from the first opening to the last closing brace of the unfenced
trimmed text, and is applied unconditionally on the storyboard path — its
result is always the response's `parsed_json` — rather than only after a
strict-mode failure. -/
theorem c7_extractor_amended :
    (∀ (content : String) (v : JsValue), jsonParse (stripCodeFences content) = some v →
      allInOneRespond content = (200, .jsonVal v)) ∧
    (∀ content : String, jsonParse (stripCodeFences content) = none →
      allInOneRespond content = (200, .rawText (stripCodeFences content))) ∧
    stripCodeFences ("```json\n\x7b\"a\":1\x7d\n```") = "\x7b\"a\":1\x7d" ∧
    jsonParse ("\x7b\"a\":1\x7d") = some (.obj [("a", .num ("1"))]) ∧
    extractJSONObject ("note: \x7b\"x\":2\x7d thanks") = some (.obj [("x", .num ("2"))]) ∧
    (∀ (st : Option RLRec) (now : Int) (b : Server2Body)
       (up : String → Except JsErr String) (text : String),
      (rateLimitStep st now).2 = true →
      jsOrD b.user ("") ≠ "" →
      jsToLower (jsOrD b.provider ("openai")) = "openai" →
      up ("openai") = .ok text →
      (storyboardStep st now (.ok b) up).2.1.parsedJson = extractJSONObject text) := by
  refine ⟨?_, ?_, by decide, rfl, rfl, ?_⟩
  · intro content v h
    simp only [allInOneRespond, h]
  · intro content h
    simp only [allInOneRespond, h]
  · intro st now b up text hadm hu hp hup
    rcases hrl : rateLimitStep st now with ⟨w, adm⟩
    rw [hrl] at hadm
    simp only at hadm
    simp [storyboardStep, hrl, hadm, hp, hu, hup]

/-- Witness for the amended C7: a fenced object parses and is answered as
JSON; plain prose is answered as raw with status 200; a storyboard request
whose upstream returns "[1]" gets `parsed_json = extractJSONObject "[1]"`. -/
theorem c7_extractor_amended_witness :
    allInOneRespond ("```json\n\x7b\"a\":1\x7d\n```")
      = (200, .jsonVal (.obj [("a", .num ("1"))])) ∧
    allInOneRespond ("hello world") = (200, .rawText (stripCodeFences ("hello world"))) ∧
    (storyboardStep none 0 (.ok ⟨some ("openai"), none, none, some ("hi")⟩)
        (fun _ => .ok ("[1]"))).2.1.parsedJson = extractJSONObject ("[1]") :=
  ⟨c7_extractor_amended.1 ("```json\n\x7b\"a\":1\x7d\n```") (.obj [("a", .num ("1"))]) rfl,
   c7_extractor_amended.2.1 ("hello world") rfl,
   c7_extractor_amended.2.2.2.2.2 none 0 ⟨some ("openai"), none, none, some ("hi")⟩
     (fun _ => .ok ("[1]")) ("[1]") rfl (by decide) rfl rfl⟩

/-- C8 counterexample: the server2 /api/generate never validates its `user`
field — a request with no prompt at all still reaches the OpenAI adapter
(with an empty message) instead of being answered 400; and the all-in-one
/api/generate accepts a whitespace-only prompt, which is empty after
trimming, because its check does not trim. -/
theorem c8_missing_prompt_counterexample :
    server2Generate ⟨some ("sk-test"), none, none⟩ ⟨some ("openai"), none, none, none⟩
      = .callUpstream ("openai") ("sk-test") ("") ∧
    allInOneGenerate ⟨some ("sk-test"), none, none⟩ ⟨some ("openai"), none, none, some (" ")⟩
      = .callUpstream ("openai") ("sk-test") (" ") := by
  refine ⟨by decide, by decide⟩

/-- C8 amended: the soraPrompt endpoints reject a prompt that is missing or
empty after trimming with 400 before any upstream call; the all-in-one
/api/generate and the storyboard proxy reject only a missing or empty
(untrimmed) `user` with 400; the server2 /api/generate performs no prompt
validation at all and always proceeds upstream once the provider key is
configured. -/
theorem c8_missing_prompt_amended :
    (∀ (env : Env) (b : PromptBody), env.OPENAI_API_KEY.getD ("") ≠ "" →
      jsTrim ((jsOrD b.soraPrompt ("")).data) = [] →
      gptPromptGenerate env b = .reject 400 ("Missing soraPrompt")) ∧
    (∀ (env : Env) (b : Server2Body), b.user.getD ("") = "" →
      allInOneGenerate env b = .reject 400 ("Missing \x27user\x27 prompt")) ∧
    (∀ (st : Option RLRec) (now : Int) (b : Server2Body)
       (up : String → Except JsErr String),
      (rateLimitStep st now).2 = true → jsOrD b.user ("") = "" →
      storyboardStep st now (.ok b) up
        = (some (rateLimitStep st now).1,
           ⟨400, false, some ("Missing \x27user\x27 prompt"), none, none⟩, false)) ∧
    (∀ (env : Env) (b : Server2Body),
      pickEnvKey env (cleanProvider b.provider) ≠ "" →
      ∃ p k u, server2Generate env b = .callUpstream p k u) := by
  refine ⟨?_, ?_, ?_, ?_⟩
  · intro env b hk hs
    have hmk : (String.mk (jsTrim ((jsOrD b.soraPrompt ("")).data)) : String) = "" := by
      rw [hs]
    simp [gptPromptGenerate, hmk, hk]
  · intro env b hu
    simp [allInOneGenerate, hu]
  · intro st now b up hadm hu
    rcases hrl : rateLimitStep st now with ⟨v, adm⟩
    rw [hrl] at hadm
    simp only at hadm
    simp [storyboardStep, hrl, hadm, hu]
  · intro env b hk
    simp only [server2Generate]
    split_ifs with h1 h2 h3
    · exact absurd h1 hk
    · exact ⟨_, _, _, rfl⟩
    · exact ⟨_, _, _, rfl⟩
    · exact ⟨_, _, _, rfl⟩

/-- Witness for the amended C8: a whitespace soraPrompt is answered 400; a
missing all-in-one `user` is answered 400; a missing storyboard `user` is
answered 400 with no provider call; a server2 request with a configured key
always reaches an upstream call. -/
theorem c8_missing_prompt_amended_witness :
    gptPromptGenerate ⟨some ("sk"), none, none⟩ ⟨some ("  ")⟩
      = .reject 400 ("Missing soraPrompt") ∧
    allInOneGenerate ⟨some ("sk"), none, none⟩ ⟨some ("openai"), none, none, none⟩
      = .reject 400 ("Missing \x27user\x27 prompt") ∧
    storyboardStep none 0 (.ok ⟨some ("openai"), none, none, none⟩) (fun _ => .ok ("t"))
      = (some (rateLimitStep none 0).1,
         ⟨400, false, some ("Missing \x27user\x27 prompt"), none, none⟩, false) ∧
    (∃ p k u, server2Generate ⟨some ("sk"), none, none⟩ ⟨some ("openai"), none, none, none⟩
      = .callUpstream p k u) :=
  ⟨c8_missing_prompt_amended.1 ⟨some ("sk"), none, none⟩ ⟨some ("  ")⟩
      (by decide) (by decide),
   c8_missing_prompt_amended.2.1 ⟨some ("sk"), none, none⟩
      ⟨some ("openai"), none, none, none⟩ rfl,
   c8_missing_prompt_amended.2.2.1 none 0 ⟨some ("openai"), none, none, none⟩
      (fun _ => .ok ("t")) rfl rfl,
   c8_missing_prompt_amended.2.2.2 ⟨some ("sk"), none, none⟩
      ⟨some ("openai"), none, none, none⟩ (by decide)⟩

/-- Helper for C10: folding the limiter over requests of one IP that all
fall inside the 60000 ms window started at `t0` never resets the record:
the count grows by one per request and the number of admitted requests is
the growth of `min count 60`. -/
theorem rateLimitRun_inWindow (t0 : Int) (ts : List Int) (c : Nat)
    (h : ∀ t ∈ ts, t - t0 ≤ 60000) :
    rateLimitRun (some ⟨c, t0⟩) ts
      = (some ⟨c + ts.length, t0⟩, min (c + ts.length) 60 - min c 60) := by
  induction ts generalizing c with
  | nil => simp [rateLimitRun]
  | cons t ts ih =>
    have ht : t - t0 ≤ 60000 := h t (List.mem_cons_self t ts)
    have hrest : ∀ x ∈ ts, x - t0 ≤ 60000 := fun x hx => h x (List.mem_cons_of_mem t hx)
    have hstep : rateLimitStep (some ⟨c, t0⟩) t = (⟨c + 1, t0⟩, decide (c + 1 ≤ 60)) := by
      simp only [rateLimitStep, Option.getD_some]
      rw [if_neg (by omega)]
    simp only [rateLimitRun, hstep, ih (c + 1) hrest]
    simp only [Prod.mk.injEq, Option.some.injEq, RLRec.mk.injEq, List.length_cons]
    refine ⟨⟨by omega, trivial⟩, ?_⟩
    by_cases hc : c + 1 ≤ 60 <;> simp [hc] <;> omega

/-- C10 (confirmed): starting from no record, a run of requests from one IP
whose clocks all lie within 60000 ms of the first request's clock `t0`
keeps the window start at `t0`, counts every request, and admits exactly
`min n 60` of the `n` requests (so at most 60); a storyboard request that
arrives in-window when the count has already reached 60 is answered
`429 {ok:false, error:"Rate limit exceeded"}` with no provider call; and a
request arriving more than 60000 ms after the window start resets the
counter (to zero, then counting itself: 1) and is admitted. -/
theorem c10_rate_limiter :
    (∀ (t0 : Int) (ts : List Int), (∀ t ∈ ts, t - t0 ≤ 60000) →
      rateLimitRun none (t0 :: ts)
        = (some ⟨1 + ts.length, t0⟩, min (1 + ts.length) 60)) ∧
    (∀ (c : Nat) (t0 now : Int) (body : Except String Server2Body)
       (up : String → Except JsErr String),
      now - t0 ≤ 60000 → 60 ≤ c →
      storyboardStep (some ⟨c, t0⟩) now body up
        = (some ⟨c + 1, t0⟩, ⟨429, false, some ("Rate limit exceeded"), none, none⟩, false)) ∧
    (∀ (c : Nat) (t0 now : Int), now - t0 > 60000 →
      rateLimitStep (some ⟨c, t0⟩) now = (⟨1, now⟩, true)) := by
  refine ⟨?_, ?_, ?_⟩
  · intro t0 ts h
    have hstep : rateLimitStep none t0 = (⟨1, t0⟩, true) := by
      simp [rateLimitStep]
    simp only [rateLimitRun, hstep, rateLimitRun_inWindow t0 ts 1 h]
    simp only [Prod.mk.injEq, Option.some.injEq, RLRec.mk.injEq, if_true]
    simp
  · intro c t0 now body up hwin hc
    have hstep : rateLimitStep (some ⟨c, t0⟩) now = (⟨c + 1, t0⟩, decide (c + 1 ≤ 60)) := by
      simp only [rateLimitStep, Option.getD_some]
      rw [if_neg (by omega)]
    have hfalse : decide (c + 1 ≤ 60) = false := by
      simp
      omega
    simp only [storyboardStep, hstep, hfalse]
    simp
  · intro c t0 now h
    simp only [rateLimitStep, Option.getD_some]
    rw [if_pos (by omega)]
    simp

/-- Witness for C10: 66 in-window requests admit exactly 60; the 61st
in-window storyboard request is answered 429 with no provider call; a
request 60001 ms after the window start is admitted with a reset counter. -/
theorem c10_rate_limiter_witness :
    rateLimitRun none ((0 : Int) :: List.replicate 65 (30000 : Int))
      = (some ⟨1 + (List.replicate 65 (30000 : Int)).length, 0⟩,
         min (1 + (List.replicate 65 (30000 : Int)).length) 60) ∧
    storyboardStep (some ⟨60, 0⟩) 1000 (.ok ⟨none, none, none, some ("hi")⟩)
        (fun _ => .ok ("ok"))
      = (some ⟨61, 0⟩, ⟨429, false, some ("Rate limit exceeded"), none, none⟩, false) ∧
    rateLimitStep (some ⟨37, 0⟩) 60001 = (⟨1, 60001⟩, true) :=
  ⟨c10_rate_limiter.1 0 (List.replicate 65 30000)
      (fun t ht => by rw [List.eq_of_mem_replicate ht]; decide),
   c10_rate_limiter.2.1 60 0 1000 (.ok ⟨none, none, none, some ("hi")⟩)
      (fun _ => .ok ("ok")) (by decide) (by decide),
   c10_rate_limiter.2.2 37 0 60001 (by decide)⟩

end GptBackend
